import Mathlib

/-!
Shallow embedding of the Bloombox telemetry client core: the base event
(`src/telemetry/event.js`), the event queue and queued-event preparation
(`bloombox.telemetry.internals.EventQueue`, `bloombox.telemetry.prepareQueuedEvent`),
and the setup routine (`bloombox.telemetry.setup`).

Machine-level JS values are modelled as follows: strings are `String` with the
empty string falsy, numbers that carry timestamps/priorities are `Nat` with `0`
falsy, optional parameters are `Option`, thrown exceptions are `Except`, and
effects on `this` and on the dispatch queue are explicit state passing.
External inputs the source reads from the environment (generated UUIDs, the
construction-time clock, configuration constants) are explicit arguments.
-/

namespace Bloombox

deriving instance DecidableEq for Except

/-- JS truthiness for strings: the empty string is falsy, every other string truthy. -/
def strTruthy (s : String) : Bool := !(s == "")

/-- Operation designators (`bloombox.telemetry.Routine`) are enum-like values resolved
per concrete event type; they are represented here by their name. -/
abbrev Routine := String

/-- Payload objects are arbitrary JSON-serializable data; modelled as flat string maps,
which is all the claims need. -/
abbrev Payload := List (String × String)

/-- `proto.analytics.Context`: the ambient/local analytics context record. Fields are
optional; proto getters return the empty string for an unset field. -/
structure Context where
  fingerprint : Option String
  group : Option String
  partner : Option String
  location : Option String
  deriving Repr, DecidableEq

/-- Proto getter `getFingerprint()`: the empty string when unset. -/
def Context.getFingerprint (c : Context) : String := c.fingerprint.getD ""

/-- Proto getter `getGroup()`: the empty string when unset. -/
def Context.getGroup (c : Context) : String := c.group.getD ""

/-- Modelled from the spec: `bloombox.util.proto.merge` (its source file is not part of
this repository). Field-wise merge in which every field present on the local (first)
argument overrides or adds to the ambient (second) argument's value, and a field present
on only one side is carried through. -/
def protoMerge (loc glob : Context) : Context where
  fingerprint := match loc.fingerprint with
    | some v => some v
    | none => glob.fingerprint
  group := match loc.group with
    | some v => some v
    | none => glob.group
  partner := match loc.partner with
    | some v => some v
    | none => glob.partner
  location := match loc.location with
    | some v => some v
    | none => glob.location

/-- `bloombox.telemetry.ContextException`, carrying its message. -/
structure ContextException where
  message : String
  deriving Repr, DecidableEq

/-- `BaseEvent.prototype.validateContext`: fingerprint and session are always required;
a falsy `getFingerprint()` or `getGroup()` on the final context throws. -/
def validateContext (context : Context) : Except ContextException Unit :=
  if strTruthy context.getFingerprint = false then
    .error { message := "Missing device fingerprint ID." }
  else if strTruthy context.getGroup = false then
    .error { message := "Missing device session ID." }
  else
    .ok ()

/-- `bloombox.telemetry.OperationStatus`: `OK` or `ERROR`. -/
inductive OperationStatus
  | OK
  | ERROR
  deriving Repr, DecidableEq

/-- Known telemetry error kinds, represented by name. -/
abbrev TelemetryError := String

/-- Value held in an event's callback slot: `null`, a callable function (identified by a
numeric id), or a truthy non-callable value that was stored there. -/
inductive CallbackSlot
  | null
  | callable (id : Nat)
  | notCallable
  deriving Repr, DecidableEq

/-- Whether a slot holds a value `typeof x === "function"` accepts. -/
def CallbackSlot.isCallable : CallbackSlot → Bool
  | .callable _ => true
  | _ => false

/-- Argument supplied for a callback parameter: absent/falsy, a function, or a truthy
non-callable value. -/
inductive CallbackValue
  | undefined
  | fn (id : Nat)
  | nonCallable
  deriving Repr, DecidableEq

/-- The slot assignment `this.xCallback = x || null` performed by `dispatch`. -/
def storeCallback : CallbackValue → CallbackSlot
  | .undefined => .null
  | .fn i => .callable i
  | .nonCallable => .notCallable

/-- `bloombox.telemetry.BaseEvent` instance state: uuid, operation, local context,
payload, occurrence timestamp and the two callback slots. -/
structure BaseEvent where
  uuid : String
  operation : Routine
  context : Context
  payload : Option Payload
  occurred : Nat
  successCallback : CallbackSlot
  failureCallback : CallbackSlot
  deriving Repr, DecidableEq

/-- The `bloombox.telemetry.BaseEvent` constructor. `freshUuid` is the value
`bloombox.util.generateUUID()` would produce and `constructionTime` is `+(new Date)`,
both external inputs made explicit. `opt_uuid || generateUUID()` treats the empty string
as falsy, and `opt_occurred || +(new Date)` treats `0` as falsy. Both callback slots
start out `null`. -/
def mkBaseEvent (context : Context) (method : Routine) (optPayload : Option Payload)
    (optOccurred : Option Nat) (optUuid : Option String) (freshUuid : String)
    (constructionTime : Nat) : BaseEvent where
  uuid := match optUuid with
    | some u => if u = "" then freshUuid else u
    | none => freshUuid
  operation := method
  context := context
  payload := optPayload
  occurred := match optOccurred with
    | some t => if t = 0 then constructionTime else t
    | none => constructionTime
  successCallback := .null
  failureCallback := .null

/-- A callback invocation observed at the transport boundary: which registered callback
ran, with which arguments. -/
inductive Invocation
  | success (id : Nat) (status : OperationStatus)
  | failure (id : Nat) (op : OperationStatus) (error : Option TelemetryError)
      (code : Option Int)
  deriving Repr, DecidableEq

/-- `BaseEvent.prototype.onSuccess`: if a callable success callback is attached, call it
with the status; in every case the success slot is then set to `null`. Returns the
invocation produced, if any, with the event as left by the call. -/
def onSuccess (e : BaseEvent) (status : OperationStatus) :
    Option Invocation × BaseEvent :=
  match e.successCallback with
  | .callable i => (some (.success i status), { e with successCallback := .null })
  | _ => (none, { e with successCallback := .null })

/-- `BaseEvent.prototype.onFailure`: if a callable failure callback is attached, call it
with the status, error and code; in every case the failure slot is then set to `null`. -/
def onFailure (e : BaseEvent) (op : OperationStatus) (error : Option TelemetryError)
    (code : Option Int) : Option Invocation × BaseEvent :=
  match e.failureCallback with
  | .callable i => (some (.failure i op error code), { e with failureCallback := .null })
  | _ => (none, { e with failureCallback := .null })

/-- A single trampoline invocation performed by the transport layer. -/
inductive TrampolineCall
  | success (status : OperationStatus)
  | failure (op : OperationStatus) (error : Option TelemetryError) (code : Option Int)
  deriving Repr, DecidableEq

/-- Run a sequence of trampoline invocations — as a misbehaving transport might produce —
against an event, collecting the callback invocations that result in order. -/
def runCalls (e : BaseEvent) : List TrampolineCall → List Invocation × BaseEvent
  | [] => ([], e)
  | .success st :: rest =>
    let step := onSuccess e st
    let next := runCalls step.2 rest
    (step.1.toList ++ next.1, next.2)
  | .failure op err code :: rest =>
    let step := onFailure e op err code
    let next := runCalls step.2 rest
    (step.1.toList ++ next.1, next.2)

/-- Whether an invocation ran the success callback. -/
def isSuccessInv : Invocation → Bool
  | .success _ _ => true
  | _ => false

/-- Whether an invocation ran the failure callback. -/
def isFailureInv : Invocation → Bool
  | .failure _ _ _ _ => true
  | _ => false

/-- Number of success-callback invocations in a trace. -/
def countSuccess (invs : List Invocation) : Nat := (invs.filter isSuccessInv).length

/-- Number of failure-callback invocations in a trace. -/
def countFailure (invs : List Invocation) : Nat := (invs.filter isFailureInv).length

/-- Whether the transport invoked the success trampoline at least once. -/
def hasSuccessCall (calls : List TrampolineCall) : Bool :=
  calls.any fun c => match c with
    | .success _ => true
    | _ => false

/-- Whether the transport invoked the failure trampoline at least once. -/
def hasFailureCall (calls : List TrampolineCall) : Bool :=
  calls.any fun c => match c with
    | .failure _ _ _ => true
    | _ => false

/-- Modelled from the spec: `bloombox.telemetry.Context.serializeProto` (not part of this
repository) — the serialized form of the merged context placed under the reserved
`context` key of the body. Any rendering of the fields serves the claims; none of them
depends on its format. -/
def serializeProto (c : Context) : String :=
  String.intercalate ";"
    ["fingerprint=" ++ c.getFingerprint, "group=" ++ c.getGroup,
      "partner=" ++ c.partner.getD "", "location=" ++ c.location.getD ""]

/-- `Object.assign` on flat string maps as used to build the request body: entries of
`updates` override same-keyed entries of `base`. -/
def objAssign (base updates : List (String × String)) : List (String × String) :=
  base.filter (fun p => !(updates.any fun q => q.1 == p.1)) ++ updates

/-- `bloombox.telemetry.rpc.TelemetryRPC` as constructed by `generateRPC`: identifier,
RPC method, request body and merged context. (The success/failure trampoline references
it also carries are the event's `onSuccess`/`onFailure` modelled above.) -/
structure TelemetryRPC where
  uuid : String
  rpcMethod : Routine
  body : List (String × String)
  context : Context
  deriving Repr, DecidableEq

/-- `rpcMethod` is abstract on `BaseEvent`; per its contract every implementor resolves
the RPC routine associated with the event — the method stored at construction. -/
def rpcMethod (e : BaseEvent) : Routine := e.operation

/-- `renderPayload` is abstract on `BaseEvent`; per its documented contract an
implementor returns the payload attached at construction time, or `null`. -/
def renderPayload (e : BaseEvent) : Option Payload := e.payload

/-- `BaseEvent.prototype.renderUUID`: the pre-generated or explicitly provided UUID. -/
def renderUUID (e : BaseEvent) : String := e.uuid

/-- `BaseEvent.prototype.renderOccurrence`: `this.occurred || now`. -/
def renderOccurrence (e : BaseEvent) (now : Nat) : Nat :=
  if e.occurred = 0 then now else e.occurred

/-- `BaseEvent.prototype.renderContext`: export the local context, merge it onto the
supplied global context, validate the result and return it; a validation failure
propagates to the caller. -/
def renderContext (e : BaseEvent) (glob : Context) : Except ContextException Context :=
  let merged := protoMerge e.context glob
  match validateContext merged with
  | .error ex => .error ex
  | .ok _ => .ok merged

/-- `BaseEvent.prototype.generateRPC`. The global context
(`bloombox.telemetry.globalContext().export()`) is an explicit argument. The binary
serialization / base64 block in the source only feeds a log statement (marked test code
there) and has no effect on the returned RPC. -/
def generateRPC (e : BaseEvent) (globalContext : Context) :
    Except ContextException TelemetryRPC :=
  match renderContext e globalContext with
  | .error ex => .error ex
  | .ok mergedContext =>
    let method := rpcMethod e
    let rpcPayload := renderPayload e
    let uuid := renderUUID e
    let renderedContext := serializeProto mergedContext
    let resolvedPayload := rpcPayload.getD []
    let body := objAssign resolvedPayload [("context", renderedContext)]
    .ok { uuid := uuid, rpcMethod := method, body := body, context := mergedContext }

/-- `bloombox.telemetry.internals.QueuedEvent`: an RPC queued to be sent, keyed by uuid. -/
structure QueuedEvent where
  rpc : TelemetryRPC
  uuid : String
  deriving Repr, DecidableEq

/-- `bloombox.telemetry.prepareQueuedEvent`: the strict `opt_uuid === undefined` check
means an explicitly supplied uuid is kept even when empty; `freshUuid` is the value
`bloombox.util.generateUUID()` would produce when no uuid is supplied. -/
def prepareQueuedEvent (rpc : TelemetryRPC) (optUuid : Option String)
    (freshUuid : String) : QueuedEvent :=
  match optUuid with
  | none => { rpc := rpc, uuid := freshUuid }
  | some u => { rpc := rpc, uuid := u }

/-- The underlying `goog.structs.PriorityQueue` (external library), modelled as a list
sorted by ascending priority. Insertion keeps equal priorities in arrival order; the
library's tie-break among equal priorities is unspecified and no claim depends on it. -/
def pqInsert (priority : Nat) (ev : QueuedEvent) :
    List (Nat × QueuedEvent) → List (Nat × QueuedEvent)
  | [] => [(priority, ev)]
  | (q, e) :: rest =>
    if priority < q then (priority, ev) :: (q, e) :: rest
    else (q, e) :: pqInsert priority ev rest

/-- `goog.structs.PriorityQueue.prototype.dequeue` (via `goog.structs.Heap.remove`):
remove and return the minimum-priority value, or `undefined` when the queue is empty. -/
def pqRemove : List (Nat × QueuedEvent) → Option QueuedEvent × List (Nat × QueuedEvent)
  | [] => (none, [])
  | (_, e) :: rest => (some e, rest)

/-- `bloombox.telemetry.internals.EventQueue` state: its internal priority queue. -/
structure EventQueue where
  queue : List (Nat × QueuedEvent)
  deriving Repr, DecidableEq

/-- `EventQueue.prototype.enqueue`: unconditional insertion at the given priority. -/
def EventQueue.enqueue (Q : EventQueue) (priority : Nat) (ev : QueuedEvent) :
    EventQueue :=
  { queue := pqInsert priority ev Q.queue }

/-- The `while (countToDequeue > 0)` loop of `EventQueue.prototype.dequeue`: on each
iteration it pops the underlying priority queue and passes the result — `undefined`
included, since there is no emptiness check — to `mapper`. Returns the list of values
passed to `mapper`, in order, together with the final priority-queue contents. -/
def dequeueLoop : Nat → List (Nat × QueuedEvent) →
    List (Option QueuedEvent) × List (Nat × QueuedEvent)
  | 0, q => ([], q)
  | n + 1, q =>
    let step := pqRemove q
    let next := dequeueLoop n step.2
    (step.1 :: next.1, next.2)

/-- `EventQueue.prototype.dequeue`: `opt_amt === undefined` selects the configured
`bloombox.telemetry.BATCH_SIZE` (a configuration constant whose definition is not part
of this repository, passed explicitly as `batchSize`). -/
def EventQueue.dequeue (Q : EventQueue) (optAmt : Option Nat) (batchSize : Nat) :
    List (Option QueuedEvent) × EventQueue :=
  let countToDequeue := optAmt.getD batchSize
  let result := dequeueLoop countToDequeue Q.queue
  (result.1, { queue := result.2 })

/-- Modelled from the spec: `bloombox.telemetry.enqueue` (its source is not part of this
repository). Per the spec, it prepares a queued request keyed by the originating event's
identifier — the RPC's uuid — and pushes it onto the dispatch queue with an assigned
numeric priority. -/
def telemetryEnqueue (Q : EventQueue) (rpc : TelemetryRPC) (priority : Nat) :
    EventQueue :=
  Q.enqueue priority (prepareQueuedEvent rpc (some rpc.uuid) rpc.uuid)

/-- `BaseEvent.prototype.dispatch`: stores `success || null` and `failure || null` on the
event, then generates the RPC and enqueues it. Returns the event as left by the call,
the outcome (`.error` being the exception propagating synchronously to the caller), and
the dispatch queue as left by the call. -/
def dispatch (e : BaseEvent) (success failure : CallbackValue) (globalContext : Context)
    (priority : Nat) (Q : EventQueue) :
    BaseEvent × Except ContextException TelemetryRPC × EventQueue :=
  let e1 := { e with successCallback := storeCallback success,
                     failureCallback := storeCallback failure }
  match generateRPC e1 globalContext with
  | .error ex => (e1, .error ex, Q)
  | .ok rpc => (e1, .ok rpc, telemetryEnqueue Q rpc priority)

/-- State-passing rendition of `renderContext` that additionally returns the ambient
(global) context as left after the call. Modelled from the spec where the source is
absent: `bloombox.util.proto.merge` is not part of this repository and per the spec the
ambient context is never mutated, so the merge step hands it back unchanged;
`validateContext` (in the repository) only reads its argument. -/
def renderContextSt (e : BaseEvent) (glob : Context) :
    Except ContextException Context × Context :=
  let merged := protoMerge e.context glob
  match validateContext merged with
  | .error ex => (.error ex, glob)
  | .ok _ => (.ok merged, glob)

/-- State-passing rendition of `generateRPC` that additionally returns the ambient
context as left after the call; the serialization and body-construction steps only read
the merged context. -/
def generateRPCSt (e : BaseEvent) (glob : Context) :
    Except ContextException TelemetryRPC × Context :=
  match renderContextSt e glob with
  | (.error ex, glob1) => (.error ex, glob1)
  | (.ok mergedContext, glob1) =>
    let body := objAssign ((renderPayload e).getD [])
      [("context", serializeProto mergedContext)]
    (.ok { uuid := renderUUID e, rpcMethod := rpcMethod e, body := body,
           context := mergedContext }, glob1)

/-- Observable outcome of `bloombox.telemetry.setup`. -/
structure SetupResult where
  configuredEndpoint : Option String
  callbackInvoked : Bool
  errorLogged : Bool
  deriving Repr, DecidableEq

/-- `bloombox.telemetry.setup`: bails out (logging an error) when partner or location is
falsy, performing neither the endpoint assignment nor the callback; otherwise assigns
`endpoint || TELEMETRY_API_ENDPOINT` to the telemetry endpoint configuration and invokes
the callback. The default endpoint constant's value is not part of this repository and
is passed explicitly as `defaultEndpoint`. -/
def setup (partner location apikey : String) (endpoint : Option String)
    (defaultEndpoint : String) : SetupResult :=
  if partner = "" ∨ location = "" then
    { configuredEndpoint := none, callbackInvoked := false, errorLogged := true }
  else
    { configuredEndpoint := some (match endpoint with
        | some ep => if ep = "" then defaultEndpoint else ep
        | none => defaultEndpoint),
      callbackInvoked := true, errorLogged := false }

-- Sample values used by witnesses and counterexamples.

/-- A context with all fields present. -/
def ctxFull : Context :=
  { fingerprint := some "fp-1", group := some "grp-1", partner := some "p",
    location := some "l" }

/-- A context with no fields present. -/
def ctxEmpty : Context :=
  { fingerprint := none, group := none, partner := none, location := none }

/-- A context with a fingerprint but no group. -/
def ctxNoGroup : Context :=
  { fingerprint := some "fp-2", group := none, partner := none, location := none }

/-- A sample event with a fully populated local context. -/
def sampleEvent : BaseEvent :=
  mkBaseEvent ctxFull "EVENT" none none none "uuid-1" 1500000000000

/-- A sample event whose merged context will be missing the group field. -/
def sampleBadEvent : BaseEvent :=
  mkBaseEvent ctxNoGroup "EVENT" none none none "uuid-2" 1500000000000

/-- A sample RPC record. -/
def sampleRPC : TelemetryRPC :=
  { uuid := "uuid-1", rpcMethod := "EVENT", body := [], context := ctxFull }

/-- A sample queued event. -/
def sampleQueuedEvent : QueuedEvent := { rpc := sampleRPC, uuid := "uuid-1" }

/-- The RPC that `dispatch sampleEvent` produces against the empty global context. -/
def sampleDispatchRPC : TelemetryRPC :=
  { uuid := "uuid-1", rpcMethod := "EVENT",
    body := [("context", "fingerprint=fp-1;group=grp-1;partner=p;location=l")],
    context := ctxFull }

-- Theorems

/-- Claim C1 (failing input): calling `dequeue(mapper, 3)` on a queue holding a single
item passes that item to the mapper and then keeps invoking the mapper with `undefined`
for the two missing items, and `dequeue(mapper, 1)` on an empty queue invokes the mapper
once with `undefined` instead of processing 0 items — the loop has no emptiness check. -/
theorem dequeue_underflow_invokes_mapper_with_undefined :
    (EventQueue.dequeue { queue := [(1, sampleQueuedEvent)] } (some 3) 5).1
      = [some sampleQueuedEvent, none, none] ∧
    (EventQueue.dequeue { queue := [] } (some 1) 5).1 = [none] := by
  constructor <;> rfl

/-- Claim C3: `renderContext` returns the merged context exactly when the merged
context's fingerprint and group are both non-empty; it raises a `ContextException`
exactly when one of them is missing/empty after the merge; and `generateRPC` raises
exactly when `renderContext` does. -/
theorem renderContext_error_iff_missing_required (e : BaseEvent) (glob : Context) :
    (renderContext e glob = .ok (protoMerge e.context glob) ↔
      ((protoMerge e.context glob).getFingerprint ≠ "" ∧
        (protoMerge e.context glob).getGroup ≠ "")) ∧
    ((∃ ex, renderContext e glob = .error ex) ↔
      ((protoMerge e.context glob).getFingerprint = "" ∨
        (protoMerge e.context glob).getGroup = "")) ∧
    ((∃ ex, generateRPC e glob = .error ex) ↔
      (∃ ex, renderContext e glob = .error ex)) := by
  by_cases h1 : (protoMerge e.context glob).getFingerprint = "" <;>
    by_cases h2 : (protoMerge e.context glob).getGroup = "" <;>
      simp [renderContext, generateRPC, validateContext, strTruthy, h1, h2]

/-- Claim C3 witness: a concrete merged context with both required fields present is
returned without error. -/
theorem renderContext_error_iff_missing_required_witness :
    renderContext sampleEvent ctxEmpty = .ok (protoMerge sampleEvent.context ctxEmpty) :=
  ((renderContext_error_iff_missing_required sampleEvent ctxEmpty).1).mpr (by decide)

/-- Claim C4: when RPC generation fails with a context validation error, `dispatch`
propagates that exception synchronously to its caller and the dispatch queue is exactly
the queue it was handed — nothing is enqueued by the failed call. -/
theorem dispatch_error_propagates_queue_unchanged (e : BaseEvent)
    (s f : CallbackValue) (glob : Context) (pr : Nat) (Q : EventQueue)
    (ex : ContextException)
    (h : generateRPC { e with successCallback := storeCallback s,
                              failureCallback := storeCallback f } glob = .error ex) :
    (dispatch e s f glob pr Q).2.1 = .error ex ∧
    (dispatch e s f glob pr Q).2.2 = Q := by
  simp [dispatch, h]

/-- Claim C4 witness: dispatching an event whose merged context lacks the group field
propagates the session-ID exception and leaves the empty queue empty. -/
theorem dispatch_error_propagates_queue_unchanged_witness :
    (dispatch sampleBadEvent .undefined .undefined ctxEmpty 0 { queue := [] }).2.1
      = .error { message := "Missing device session ID." } ∧
    (dispatch sampleBadEvent .undefined .undefined ctxEmpty 0 { queue := [] }).2.2
      = { queue := [] } :=
  dispatch_error_propagates_queue_unchanged sampleBadEvent .undefined .undefined
    ctxEmpty 0 { queue := [] } { message := "Missing device session ID." } (by decide)

/-- Claim C6: the state-passing renditions of `renderContext` and `generateRPC` compute
the same results as the direct ones and return the ambient context unchanged — every
field of the global context has the same value after the call as before it. -/
theorem renderContext_preserves_global_context (e : BaseEvent) (glob : Context) :
    (renderContextSt e glob).1 = renderContext e glob ∧
    (renderContextSt e glob).2 = glob ∧
    (generateRPCSt e glob).1 = generateRPC e glob ∧
    (generateRPCSt e glob).2 = glob := by
  cases h : validateContext (protoMerge e.context glob) <;>
    simp [renderContextSt, generateRPCSt, renderContext, generateRPC, h]

/-- Claim C8 counterexample: an event constructed with the explicit occurrence timestamp
0 renders the construction time, not 0 — `opt_occurred || +(new Date)` treats 0 as
falsy, so the supplied timestamp is discarded at construction. -/
theorem renderOccurrence_explicit_zero_not_honored :
    renderOccurrence
        (mkBaseEvent ctxFull "EVENT" none (some 0) none "uuid-3" 1500000000000) 42
      = 1500000000000 ∧
    renderOccurrence
        (mkBaseEvent ctxFull "EVENT" none (some 0) none "uuid-3" 1500000000000) 42
      ≠ 0 := by
  constructor <;> decide

/-- Claim C8 (amended): a nonzero explicit timestamp T is returned for every argument;
with no explicit timestamp and a nonzero construction time, `renderOccurrence` returns
the construction time, not `now`; and a zero explicit timestamp is treated as absent,
behaving exactly like an event constructed with no explicit timestamp. -/
theorem renderOccurrence_defaulting (c : Context) (m : Routine) (p : Option Payload)
    (u : Option String) (fr : String) (cT now T : Nat) :
    (T ≠ 0 → renderOccurrence (mkBaseEvent c m p (some T) u fr cT) now = T) ∧
    (cT ≠ 0 → renderOccurrence (mkBaseEvent c m p none u fr cT) now = cT) ∧
    renderOccurrence (mkBaseEvent c m p (some 0) u fr cT) now
      = renderOccurrence (mkBaseEvent c m p none u fr cT) now := by
  refine ⟨fun hT => ?_, fun hc => ?_, ?_⟩ <;>
    simp [mkBaseEvent, renderOccurrence, *]

/-- Claim C8 witness: the explicit nonzero timestamp 7 is honored regardless of `now`. -/
theorem renderOccurrence_defaulting_witness :
    (7 : Nat) ≠ 0 ∧
    renderOccurrence (mkBaseEvent ctxFull "EVENT" none (some 7) none "u" 100) 42 = 7 :=
  ⟨by decide,
    (renderOccurrence_defaulting ctxFull "EVENT" none none "u" 100 42 7).1 (by decide)⟩

/-- Claim C9 counterexample: with non-empty partner and location and a supplied
empty-string endpoint override, `setup` configures the default endpoint, not the
supplied override — the assignment is `endpoint || TELEMETRY_API_ENDPOINT`, which
treats the empty string as falsy. -/
theorem setup_empty_override_uses_default :
    (setup "p" "l" "key" (some "") "https://telemetry.api/v1beta3").configuredEndpoint
      = some "https://telemetry.api/v1beta3" ∧
    (setup "p" "l" "key" (some "") "https://telemetry.api/v1beta3").configuredEndpoint
      ≠ some "" := by
  constructor <;> decide

/-- Claim C9 (amended): `setup` validates that partner and location are non-empty; when
both are non-empty it configures the telemetry endpoint — the supplied override when
that is non-empty, otherwise the default endpoint — and invokes the completion
callback; when either is empty, neither the endpoint configuration nor the callback
invocation occurs. -/
theorem setup_validates_and_configures (partner location apikey : String)
    (endpoint : Option String) (d : String) :
    (partner ≠ "" → location ≠ "" →
      (setup partner location apikey endpoint d).configuredEndpoint
        = some (match endpoint with
            | some ep => if ep = "" then d else ep
            | none => d) ∧
      (setup partner location apikey endpoint d).callbackInvoked = true) ∧
    ((partner = "" ∨ location = "") →
      (setup partner location apikey endpoint d).configuredEndpoint = none ∧
      (setup partner location apikey endpoint d).callbackInvoked = false) := by
  constructor
  · intro hp hl
    simp [setup, hp, hl]
  · intro h
    rcases h with h | h <;> simp [setup, h]

/-- Claim C9 witness: valid partner and location with no override configure the default
endpoint and invoke the callback. -/
theorem setup_validates_and_configures_witness :
    (setup "p" "l" "key" none "https://default.endpoint").configuredEndpoint
      = some "https://default.endpoint" ∧
    (setup "p" "l" "key" none "https://default.endpoint").callbackInvoked = true :=
  (setup_validates_and_configures "p" "l" "key" none "https://default.endpoint").1
    (by decide) (by decide)

/-- Claim C10: a supplied empty-string identifier is discarded in favor of the generated
UUID, which `renderUUID` then returns (non-empty whenever the generator's output is);
a supplied identifier is honored exactly when it is non-empty. -/
theorem uuid_empty_supplied_regenerated (c : Context) (m : Routine) (p : Option Payload)
    (occ : Option Nat) (fresh : String) (cT : Nat) :
    renderUUID (mkBaseEvent c m p occ (some "") fresh cT) = fresh ∧
    (fresh ≠ "" → renderUUID (mkBaseEvent c m p occ (some "") fresh cT) ≠ "") ∧
    (∀ u : String, u ≠ "" →
      renderUUID (mkBaseEvent c m p occ (some u) fresh cT) = u) := by
  refine ⟨?_, fun h => ?_, fun u hu => ?_⟩ <;> simp [mkBaseEvent, renderUUID, *]

/-- Claim C10 witness: concrete instances of both halves. -/
theorem uuid_empty_supplied_regenerated_witness :
    renderUUID (mkBaseEvent ctxFull "EVENT" none none (some "") "fresh-uuid" 5)
      = "fresh-uuid" ∧
    renderUUID (mkBaseEvent ctxFull "EVENT" none none (some "abc") "fresh-uuid" 5)
      = "abc" :=
  ⟨(uuid_empty_supplied_regenerated ctxFull "EVENT" none none "fresh-uuid" 5).1,
    (uuid_empty_supplied_regenerated ctxFull "EVENT" none none "fresh-uuid" 5).2.2
      "abc" (by decide)⟩

/-- Claim C5: the context `renderContext` produces is exactly the field-wise merge of
the local context onto the ambient one — for each field, a value present on the local
context overrides the ambient value, and a field present only on the ambient side is
carried through. -/
theorem renderContext_is_fieldwise_merge (e : BaseEvent) (glob : Context) :
    (∀ m, renderContext e glob = .ok m → m = protoMerge e.context glob) ∧
    (∀ v, e.context.fingerprint = some v →
      (protoMerge e.context glob).fingerprint = some v) ∧
    (e.context.fingerprint = none →
      (protoMerge e.context glob).fingerprint = glob.fingerprint) ∧
    (∀ v, e.context.group = some v → (protoMerge e.context glob).group = some v) ∧
    (e.context.group = none → (protoMerge e.context glob).group = glob.group) ∧
    (∀ v, e.context.partner = some v → (protoMerge e.context glob).partner = some v) ∧
    (e.context.partner = none → (protoMerge e.context glob).partner = glob.partner) ∧
    (∀ v, e.context.location = some v →
      (protoMerge e.context glob).location = some v) ∧
    (e.context.location = none →
      (protoMerge e.context glob).location = glob.location) := by
  refine ⟨fun m hm => ?_, fun v hv => ?_, fun hv => ?_, fun v hv => ?_, fun hv => ?_,
    fun v hv => ?_, fun hv => ?_, fun v hv => ?_, fun hv => ?_⟩
  · cases h : validateContext (protoMerge e.context glob) <;>
      simp [renderContext, h] at hm
    exact hm.symm
  all_goals simp [protoMerge, hv]

/-- Claim C5 witness: a present local field overrides, and the ambient value of a field
absent locally is carried through, at concrete contexts. -/
theorem renderContext_is_fieldwise_merge_witness :
    (protoMerge sampleEvent.context ctxEmpty).fingerprint = some "fp-1" ∧
    (protoMerge sampleBadEvent.context ctxFull).group = ctxFull.group :=
  ⟨(renderContext_is_fieldwise_merge sampleEvent ctxEmpty).2.1 "fp-1" (by decide),
    (renderContext_is_fieldwise_merge sampleBadEvent ctxFull).2.2.2.2.1 (by decide)⟩

/-- A successful `generateRPC` stamps the RPC with the event's `renderUUID`. -/
theorem generateRPC_ok_uuid (e : BaseEvent) (glob : Context) (rpc : TelemetryRPC)
    (h : generateRPC e glob = .ok rpc) : rpc.uuid = renderUUID e := by
  cases hv : validateContext (protoMerge e.context glob) <;>
    simp [generateRPC, renderContext, hv] at h
  rw [← h]

/-- Claim C7: `renderUUID` returns the identifier fixed at construction — it is
unchanged by `dispatch` and by the callback trampolines — and when `dispatch` succeeds,
the generated RPC carries that identifier and the queued request pushed onto the
dispatch queue is keyed by it. -/
theorem renderUUID_stable_and_keys_queued_request (e : BaseEvent)
    (s f : CallbackValue) (glob : Context) (pr : Nat) (Q : EventQueue)
    (st : OperationStatus) (err : Option TelemetryError) (cd : Option Int)
    (rpc : TelemetryRPC) :
    renderUUID (dispatch e s f glob pr Q).1 = renderUUID e ∧
    renderUUID (onSuccess e st).2 = renderUUID e ∧
    renderUUID (onFailure e st err cd).2 = renderUUID e ∧
    ((dispatch e s f glob pr Q).2.1 = .ok rpc →
      rpc.uuid = renderUUID e ∧
      (dispatch e s f glob pr Q).2.2
        = Q.enqueue pr { rpc := rpc, uuid := renderUUID e }) := by
  refine ⟨?_, ?_, ?_, fun h => ?_⟩
  · cases hg : generateRPC { e with successCallback := storeCallback s, failureCallback := storeCallback f } glob <;>
      simp [dispatch, hg, renderUUID]
  · cases hs : e.successCallback <;> simp [onSuccess, hs, renderUUID]
  · cases hf : e.failureCallback <;> simp [onFailure, hf, renderUUID]
  · cases hg : generateRPC { e with successCallback := storeCallback s, failureCallback := storeCallback f } glob with
    | error ex => simp [dispatch, hg] at h
    | ok r =>
      have hu : r.uuid = renderUUID e := generateRPC_ok_uuid _ glob r hg
      simp [dispatch, hg] at h
      subst h
      exact ⟨hu, by simp [dispatch, hg, telemetryEnqueue, prepareQueuedEvent, hu]⟩

/-- Claim C7 witness: a concrete successful dispatch produces an RPC carrying the
event's UUID and a queued request keyed by it. -/
theorem renderUUID_stable_and_keys_queued_request_witness :
    sampleDispatchRPC.uuid = renderUUID sampleEvent ∧
    (dispatch sampleEvent .undefined .undefined ctxEmpty 0 { queue := [] }).2.2
      = EventQueue.enqueue { queue := [] } 0
          { rpc := sampleDispatchRPC, uuid := renderUUID sampleEvent } :=
  (renderUUID_stable_and_keys_queued_request sampleEvent .undefined .undefined ctxEmpty
    0 { queue := [] } .OK none none sampleDispatchRPC).2.2.2 (by decide)

/-- `dispatch` returns the event with the two callback slots stored and every other
field unchanged. -/
theorem dispatch_event_state (e : BaseEvent) (s f : CallbackValue) (glob : Context)
    (pr : Nat) (Q : EventQueue) :
    (dispatch e s f glob pr Q).1
      = { e with successCallback := storeCallback s,
                 failureCallback := storeCallback f } := by
  cases hg : generateRPC { e with successCallback := storeCallback s, failureCallback := storeCallback f } glob <;>
    simp [dispatch, hg]

/-- Success-invocation counts add over concatenated traces. -/
theorem countSuccess_append (a b : List Invocation) :
    countSuccess (a ++ b) = countSuccess a + countSuccess b := by
  simp [countSuccess]

/-- Failure-invocation counts add over concatenated traces. -/
theorem countFailure_append (a b : List Invocation) :
    countFailure (a ++ b) = countFailure a + countFailure b := by
  simp [countFailure]

/-- The empty trace holds no success invocation. -/
theorem countSuccess_nil : countSuccess [] = 0 := rfl

/-- The empty trace holds no failure invocation. -/
theorem countFailure_nil : countFailure [] = 0 := rfl

/-- A success invocation at the head adds one to the success count. -/
theorem countSuccess_cons_success (i : Nat) (st : OperationStatus)
    (l : List Invocation) :
    countSuccess (.success i st :: l) = countSuccess l + 1 := by
  simp [countSuccess, isSuccessInv, Nat.add_comm]

/-- A failure invocation at the head leaves the success count unchanged. -/
theorem countSuccess_cons_failure (i : Nat) (op : OperationStatus)
    (err : Option TelemetryError) (cd : Option Int) (l : List Invocation) :
    countSuccess (.failure i op err cd :: l) = countSuccess l := by
  simp [countSuccess, isSuccessInv]

/-- A failure invocation at the head adds one to the failure count. -/
theorem countFailure_cons_failure (i : Nat) (op : OperationStatus)
    (err : Option TelemetryError) (cd : Option Int) (l : List Invocation) :
    countFailure (.failure i op err cd :: l) = countFailure l + 1 := by
  simp [countFailure, isFailureInv, Nat.add_comm]

/-- A success invocation at the head leaves the failure count unchanged. -/
theorem countFailure_cons_success (i : Nat) (st : OperationStatus)
    (l : List Invocation) :
    countFailure (.success i st :: l) = countFailure l := by
  simp [countFailure, isFailureInv]

/-- A success trampoline call at the head makes `hasSuccessCall` true. -/
theorem hasSuccessCall_cons_success (st : OperationStatus)
    (rest : List TrampolineCall) :
    hasSuccessCall (.success st :: rest) = true := by
  simp [hasSuccessCall]

/-- A failure trampoline call at the head does not affect `hasSuccessCall`. -/
theorem hasSuccessCall_cons_failure (op : OperationStatus)
    (err : Option TelemetryError) (cd : Option Int) (rest : List TrampolineCall) :
    hasSuccessCall (.failure op err cd :: rest) = hasSuccessCall rest := by
  simp [hasSuccessCall]

/-- A failure trampoline call at the head makes `hasFailureCall` true. -/
theorem hasFailureCall_cons_failure (op : OperationStatus)
    (err : Option TelemetryError) (cd : Option Int) (rest : List TrampolineCall) :
    hasFailureCall (.failure op err cd :: rest) = true := by
  simp [hasFailureCall]

/-- A success trampoline call at the head does not affect `hasFailureCall`. -/
theorem hasFailureCall_cons_success (st : OperationStatus)
    (rest : List TrampolineCall) :
    hasFailureCall (.success st :: rest) = hasFailureCall rest := by
  simp [hasFailureCall]

/-- Across any sequence of trampoline invocations, the success callback runs once when
the slot is callable and the success trampoline is invoked at least once, and never
otherwise: the first `onSuccess` clears the slot. -/
theorem runCalls_countSuccess (calls : List TrampolineCall) : ∀ e : BaseEvent,
    countSuccess (runCalls e calls).1
      = if e.successCallback.isCallable && hasSuccessCall calls then 1 else 0 := by
  induction calls with
  | nil => intro e; simp [runCalls, countSuccess_nil, hasSuccessCall]
  | cons c rest ih =>
    intro e
    cases c with
    | success st =>
      cases hs : e.successCallback <;>
        simp [runCalls, onSuccess, hs, countSuccess_append, countSuccess_nil,
          countSuccess_cons_success, countSuccess_cons_failure, ih,
          hasSuccessCall_cons_success, CallbackSlot.isCallable]
    | failure op err code =>
      cases hf : e.failureCallback <;>
        simp [runCalls, onFailure, hf, countSuccess_append, countSuccess_nil,
          countSuccess_cons_success, countSuccess_cons_failure, ih,
          hasSuccessCall_cons_failure, CallbackSlot.isCallable]

/-- Across any sequence of trampoline invocations, the failure callback runs once when
the slot is callable and the failure trampoline is invoked at least once, and never
otherwise: the first `onFailure` clears the slot. -/
theorem runCalls_countFailure (calls : List TrampolineCall) : ∀ e : BaseEvent,
    countFailure (runCalls e calls).1
      = if e.failureCallback.isCallable && hasFailureCall calls then 1 else 0 := by
  induction calls with
  | nil => intro e; simp [runCalls, countFailure_nil, hasFailureCall]
  | cons c rest ih =>
    intro e
    cases c with
    | success st =>
      cases hs : e.successCallback <;>
        simp [runCalls, onSuccess, hs, countFailure_append, countFailure_nil,
          countFailure_cons_failure, countFailure_cons_success, ih,
          hasFailureCall_cons_success, CallbackSlot.isCallable]
    | failure op err code =>
      cases hf : e.failureCallback <;>
        simp [runCalls, onFailure, hf, countFailure_append, countFailure_nil,
          countFailure_cons_failure, countFailure_cons_success, ih,
          hasFailureCall_cons_failure, CallbackSlot.isCallable]

/-- Claim C2 (amended): after `dispatch(s, f)` with callable callbacks, across any
sequence of trampoline invocations by the transport, each registered callback is
invoked at most once — exactly once iff its trampoline is invoked at least once.
A transport that invokes only one of the trampolines (however many times) therefore
delivers exactly one callback, but a transport that invokes both trampolines causes
both callbacks to be invoked. -/
theorem dispatch_callbacks_at_most_once (e : BaseEvent) (si fi : Nat) (glob : Context)
    (pr : Nat) (Q : EventQueue) (calls : List TrampolineCall) :
    countSuccess (runCalls (dispatch e (.fn si) (.fn fi) glob pr Q).1 calls).1
      = (if hasSuccessCall calls then 1 else 0) ∧
    countFailure (runCalls (dispatch e (.fn si) (.fn fi) glob pr Q).1 calls).1
      = (if hasFailureCall calls then 1 else 0) := by
  rw [dispatch_event_state]
  constructor
  · rw [runCalls_countSuccess]
    simp [storeCallback, CallbackSlot.isCallable]
  · rw [runCalls_countFailure]
    simp [storeCallback, CallbackSlot.isCallable]

/-- Claim C2 counterexample: after `dispatch(s, f)`, a misbehaving transport that
invokes `onSuccess` and then `onFailure` causes BOTH registered callbacks to be
invoked, once each — so it is not the case that exactly one of `s`/`f` is invoked. -/
theorem dispatch_both_trampolines_invoke_both_callbacks :
    countSuccess (runCalls
        (dispatch sampleEvent (.fn 1) (.fn 2) ctxFull 0 { queue := [] }).1
        [.success .OK, .failure .ERROR none none]).1 = 1 ∧
    countFailure (runCalls
        (dispatch sampleEvent (.fn 1) (.fn 2) ctxFull 0 { queue := [] }).1
        [.success .OK, .failure .ERROR none none]).1 = 1 ∧
    countSuccess (runCalls
        (dispatch sampleEvent (.fn 1) (.fn 2) ctxFull 0 { queue := [] }).1
        [.success .OK, .failure .ERROR none none]).1
      + countFailure (runCalls
        (dispatch sampleEvent (.fn 1) (.fn 2) ctxFull 0 { queue := [] }).1
        [.success .OK, .failure .ERROR none none]).1 ≠ 1 := by
  refine ⟨?_, ?_, ?_⟩ <;> decide

end Bloombox
